import Mathlib

/-!
Verification development for a build-tool cache proxy (gocacheprog).

The embedding models the content store (`savefile` in package proc and
`DiskCache.Put`/`DiskCache.Get` in package disk), the request handlers
(`Process.handleGet`, `Process.handlePut`, `Process.handleRequest`) and the
framed read loop of `Process.Run`, over an explicit file-system state.

Modelling conventions:
- byte slices are `List Nat`;
- the file system is an association list from path strings to files, where a
  file carries its content and its modification time; `os.Rename` is a single
  atomic update; `os.CreateTemp` is modelled with a deterministic temp name;
- file contents are either raw payload bytes or a parsed index entry: a file
  written by `json.Marshal(indexEntry{...})` holds the `.index` constructor and
  `json.Unmarshal` into `indexEntry` succeeds exactly on such files, any other
  content makes it fail (this collapses the JSON byte syntax, which no claim
  inspects, while keeping the marshal/unmarshal round trip faithful);
- `io.Copy` from an in-memory reader copies all of its bytes and reports their
  count; a nil `req.Body` behaves as `bytes.NewReader(nil)`;
- `time.Now().UnixNano()` and file modification times are an explicit `now`
  parameter threaded through the operations;
- the remote cache (`gcs.GCSCache`) is an oracle parameter giving, per hex
  actionID, either an error or a triple (outputID, size, body bytes), matching
  the signature `Get(ctx, actionID) (string, io.Reader, int, error)`.
-/

namespace GoCache

/-- Byte slices (`[]byte`) as lists of byte values. -/
abbrev Bytes := List Nat

/-- Lowercase hex digit for a nibble, as produced by `fmt.Sprintf("%x", ...)`
(Go's hextable). -/
def hexDigitChar (n : Nat) : Char :=
  "0123456789abcdef".data.getD (n % 16) '0'

/-- Hex encoding of a byte slice: `fmt.Sprintf("%x", b)`, two lowercase digits
per byte. -/
def hexEncode (bs : Bytes) : String :=
  ⟨bs.flatMap fun b => [hexDigitChar (b / 16), hexDigitChar b]⟩

/-- Whether `encoding/hex` accepts the character (`fromHexChar`). -/
def isHexDigit (c : Char) : Bool :=
  ('0' ≤ c && c ≤ '9') || ('a' ≤ c && c ≤ 'f') || ('A' ≤ c && c ≤ 'F')

/-- Numeric value of a hex digit character (`fromHexChar`). -/
def hexDigitVal (c : Char) : Nat :=
  if '0' ≤ c && c ≤ '9' then c.toNat - '0'.toNat
  else if 'a' ≤ c && c ≤ 'f' then c.toNat - 'a'.toNat + 10
  else c.toNat - 'A'.toNat + 10

/-- Decode consecutive pairs of hex digits into bytes. -/
def hexPairs : List Char → Bytes
  | c₁ :: c₂ :: rest => (hexDigitVal c₁ * 16 + hexDigitVal c₂) :: hexPairs rest
  | _ => []

/-- Model of `hex.DecodeString`: fails on an odd length or a non-hex
character, otherwise decodes pairs of digits into bytes. -/
def hexDecodeString (s : String) : Option Bytes :=
  if s.data.all isHexDigit && s.data.length % 2 == 0 then
    some (hexPairs s.data)
  else
    none

/-- On-disk index entry (`indexEntry` in packages proc and disk):
`{"v":…,"o":…,"n":…,"t":…}`. -/
structure IndexEntry where
  version : Int
  outputID : String
  size : Int
  timeNanos : Int
deriving DecidableEq, Repr

/-- Content of a file: raw payload bytes, or the JSON of an index entry. -/
inductive FileContent where
  | raw (bs : Bytes)
  | index (ie : IndexEntry)
deriving DecidableEq, Repr

/-- A file on disk: content plus modification time (`fi.ModTime().UnixNano()`). -/
structure File where
  content : FileContent
  mtime : Int
deriving DecidableEq, Repr

/-- Size reported by `os.Stat` for a file. Only payload files (raw bytes) are
ever statted by the code under verification; the index case is given a dummy
size. -/
def FileContent.statSize : FileContent → Int
  | .raw bs => (bs.length : Int)
  | .index _ => 0

/-- The file system: an association list from paths to files, newest binding
first. -/
def FS := List (String × File)

/-- The empty file system. -/
def FS.empty : FS := []

/-- Look a path up (models `os.Stat` / `os.ReadFile`; `none` is
`os.IsNotExist`). -/
def FS.lookup (fs : FS) (p : String) : Option File :=
  match fs with
  | [] => none
  | (q, f) :: rest => if q = p then some f else FS.lookup rest p

/-- Create or overwrite the file at a path. -/
def FS.set (fs : FS) (p : String) (f : File) : FS :=
  (p, f) :: fs

/-- Remove the file at a path (the temp file consumed by `os.Rename`). -/
def FS.erase (fs : FS) (p : String) : FS :=
  fs.filter fun q => q.1 ≠ p

theorem FS.lookup_set_self (fs : FS) (p : String) (f : File) :
    (fs.set p f).lookup p = some f := by
  simp [FS.set, FS.lookup]

theorem FS.lookup_set_ne (fs : FS) (p q : String) (f : File) (h : p ≠ q) :
    (fs.set p f).lookup q = fs.lookup q := by
  simp [FS.set, FS.lookup, h]

theorem FS.lookup_erase_self (fs : FS) (p : String) :
    (fs.erase p).lookup p = none := by
  induction fs with
  | nil => rfl
  | cons hd tl ih =>
    by_cases h : hd.1 = p
    · simpa [FS.erase, h] using ih
    · simpa [FS.erase, FS.lookup, h] using ih

theorem FS.lookup_erase_ne (fs : FS) (p q : String) (h : p ≠ q) :
    (fs.erase p).lookup q = fs.lookup q := by
  induction fs with
  | nil => rfl
  | cons hd tl ih =>
    rcases hd with ⟨r, f⟩
    by_cases h2 : r = p
    · subst h2
      simpa [FS.erase, List.filter_cons, FS.lookup, h] using ih
    · by_cases h3 : r = q
      · simp [FS.erase, List.filter_cons, FS.lookup, h2, h3, Ne.symm h]
      · simpa [FS.erase, List.filter_cons, FS.lookup, h2, h3] using ih

/-- Path of a payload file: `filepath.Join(dir, fmt.Sprintf("o-%s", objectID))`. -/
def oFile (dir objectID : String) : String := dir ++ "/o-" ++ objectID

/-- Path of an index-entry file: `filepath.Join(dir, fmt.Sprintf("a-%s", actionID))`. -/
def aFile (dir actionID : String) : String := dir ++ "/a-" ++ actionID

/-- Deterministic model of the name `os.CreateTemp(filepath.Dir(dest),
filepath.Base(dest)+".*")` picks. -/
def tempName (dest : String) : String := dest ++ ".tmp"

/-- Observable file-system operations, recorded as a trace so that ordering
claims (payload before index entry, temp-then-rename) can be stated. -/
inductive FsOp where
  | createTemp (tmp : String)
  | renameInto (dest : String)
  | createEmpty (dest : String)
deriving DecidableEq, Repr

/-- Result of `writeTempFile`: the temp file's name, the byte count reported by
`io.Copy`, the updated file system and the operation trace. -/
structure TempRes where
  name : String
  wrote : Int
  fs : FS
  ops : List FsOp

/-- Model of `writeTempFile(dest, r)`: create a temp file next to `dest` and
copy the reader into it. For an index-entry write the `io.Copy` count is the
length of the marshalled JSON; the code discards that count, so `statSize`'s
dummy value for `.index` content is never observable. -/
def writeTempFile (dest : String) (content : FileContent) (now : Int) (fs : FS) : TempRes :=
  let tmp := tempName dest
  ⟨tmp, content.statSize, fs.set tmp ⟨content, now⟩, [.createTemp tmp]⟩

/-- Result of `writeAtomic`. -/
structure WriteRes where
  wrote : Int
  fs : FS
  ops : List FsOp

/-- Model of `writeAtomic(dest, r)`: write a temp file, then `os.Rename` it
onto `dest` in one atomic step. -/
def writeAtomic (dest : String) (content : FileContent) (now : Int) (fs : FS) : WriteRes :=
  let t := writeTempFile dest content now fs
  ⟨t.wrote, (t.fs.erase t.name).set dest ⟨content, now⟩, t.ops ++ [.renameInto dest]⟩

/-- Result of the content-store put (`savefile` / `DiskCache.Put`): the
returned path or error, the final file system, the operation trace, and the
bytes consumed from the body reader (what an `io.TeeReader` wrapped around the
body observes). -/
structure SaveResult where
  result : Except String String
  fs : FS
  trace : List FsOp
  consumed : Bytes

/-- Common body of `savefile` (package proc) and `DiskCache.Put` (package
disk); the two Go functions are line-for-line copies differing only in how the
payload path `oF` and index path `aF` are derived from the cache directory.
When `size == 0` the payload is created empty via
`os.OpenFile(file, O_CREATE|O_TRUNC|O_RDWR, 0644)` and the body is not read;
otherwise the payload goes through `writeAtomic` and a copy count different
from `size` is an error that returns before the index entry is written. -/
def putCore (objectID oF aF : String) (size : Int) (body : Bytes) (now : Int)
    (fs : FS) : SaveResult :=
  if size = 0 then
    let fs1 := fs.set oF ⟨.raw [], now⟩
    let ie : IndexEntry := ⟨1, objectID, size, now⟩
    let w := writeAtomic aF (.index ie) now fs1
    ⟨.ok oF, w.fs, .createEmpty oF :: w.ops, []⟩
  else
    let w := writeAtomic oF (.raw body) now fs
    let wrote := w.wrote
    if wrote ≠ size then
      ⟨.error s!"wrote {wrote} bytes, expected {size}", w.fs, w.ops, body⟩
    else
      let ie : IndexEntry := ⟨1, objectID, size, now⟩
      let w2 := writeAtomic aF (.index ie) now w.fs
      ⟨.ok oF, w2.fs, w.ops ++ w2.ops, body⟩

/-- Model of `savefile(actionID, objectID, size, body)` in package proc: the
cache directory is `filepath.Join(os.UserCacheDir(), "gocacheprog")`, with
`dir` standing for `os.UserCacheDir()`. -/
def savefile (dir actionID objectID : String) (size : Int) (body : Bytes) (now : Int)
    (fs : FS) : SaveResult :=
  putCore objectID (oFile (dir ++ "/gocacheprog") objectID)
    (aFile (dir ++ "/gocacheprog") actionID) size body now fs

/-- Model of `DiskCache.Put(ctx, actionID, objectID, size, body)` in package
disk; `dir` is `dc.dir`. -/
def DiskCache.Put (dir actionID objectID : String) (size : Int) (body : Bytes) (now : Int)
    (fs : FS) : SaveResult :=
  putCore objectID (oFile dir objectID) (aFile dir actionID) size body now fs

theorem length_tempName (x : String) : (tempName x).length = x.length + 4 := by
  simp [tempName, String.length_append]
  rfl

theorem ne_tempName_self (x : String) : x ≠ tempName x := by
  intro h
  have := congrArg String.length h
  rw [length_tempName] at this
  omega

theorem string_ne_of_marker (p : List Char) (c₁ c₂ : Char) (s t : List Char)
    {x y : String} (hx : x.data = p ++ c₁ :: s) (hy : y.data = p ++ c₂ :: t)
    (h : c₁ ≠ c₂) : x ≠ y := by
  intro he
  subst he
  rw [hx] at hy
  have h2 := List.append_cancel_left hy
  simp only [List.cons.injEq] at h2
  exact h h2.1

theorem oFile_ne_aFile (dir o a : String) : oFile dir o ≠ aFile dir a := by
  refine string_ne_of_marker (dir.data ++ ['/']) 'o' 'a'
    ('-' :: o.data) ('-' :: a.data) ?_ ?_ (by decide)
  · simp [oFile, String.data_append]
  · simp [aFile, String.data_append]

theorem oFile_ne_tempName_aFile (dir o a : String) :
    oFile dir o ≠ tempName (aFile dir a) := by
  refine string_ne_of_marker (dir.data ++ ['/']) 'o' 'a'
    ('-' :: o.data) ('-' :: (a.data ++ ['.', 't', 'm', 'p'])) ?_ ?_ (by decide)
  · simp [oFile, String.data_append]
  · simp [aFile, tempName, String.data_append]

theorem aFile_ne_tempName_oFile (dir a o : String) :
    aFile dir a ≠ tempName (oFile dir o) := by
  refine string_ne_of_marker (dir.data ++ ['/']) 'a' 'o'
    ('-' :: a.data) ('-' :: (o.data ++ ['.', 't', 'm', 'p'])) ?_ ?_ (by decide)
  · simp [aFile, String.data_append]
  · simp [oFile, tempName, String.data_append]

theorem putCore_ok (o oF aF : String) (size : Int) (body : Bytes) (now : Int) (fs : FS)
    (h : (body.length : Int) = size) (hoa : oF ≠ aF) (hot : oF ≠ tempName aF) :
    (putCore o oF aF size body now fs).result = .ok oF ∧
    (putCore o oF aF size body now fs).consumed = body ∧
    (putCore o oF aF size body now fs).trace =
      (if size = 0 then
        [.createEmpty oF, .createTemp (tempName aF), .renameInto aF]
      else
        [.createTemp (tempName oF), .renameInto oF,
         .createTemp (tempName aF), .renameInto aF]) ∧
    (putCore o oF aF size body now fs).fs.lookup aF =
      some ⟨.index ⟨1, o, size, now⟩, now⟩ ∧
    (putCore o oF aF size body now fs).fs.lookup oF = some ⟨.raw body, now⟩ := by
  by_cases hsz : size = 0
  · have hb : body = [] := by
      have hlen : body.length = 0 := by omega
      exact List.length_eq_zero.mp hlen
    subst hsz
    subst hb
    simp only [putCore, writeAtomic, writeTempFile]
    rw [if_pos trivial, if_pos trivial]
    refine ⟨rfl, rfl, rfl, ?_, ?_⟩
    · exact FS.lookup_set_self _ _ _
    · rw [FS.lookup_set_ne _ _ _ _ (Ne.symm hoa), FS.lookup_erase_ne _ _ _ (Ne.symm hot),
        FS.lookup_set_ne _ _ _ _ (Ne.symm hot)]
      exact FS.lookup_set_self _ _ _
  · have hw : ¬((FileContent.raw body).statSize ≠ size) := by
      simp [FileContent.statSize, h]
    simp only [putCore, writeAtomic, writeTempFile]
    rw [if_neg hsz, if_neg hw, if_neg hsz]
    refine ⟨rfl, rfl, rfl, ?_, ?_⟩
    · exact FS.lookup_set_self _ _ _
    · rw [FS.lookup_set_ne _ _ _ _ (Ne.symm hoa), FS.lookup_erase_ne _ _ _ (Ne.symm hot),
        FS.lookup_set_ne _ _ _ _ (Ne.symm hot)]
      exact FS.lookup_set_self _ _ _

theorem putCore_mismatch (o oF aF : String) (size : Int) (body : Bytes) (now : Int) (fs : FS)
    (h0 : size ≠ 0) (h : (body.length : Int) ≠ size)
    (hao : aF ≠ oF) (hat : aF ≠ tempName oF) :
    (∃ e, (putCore o oF aF size body now fs).result = .error e) ∧
    (putCore o oF aF size body now fs).trace =
      [.createTemp (tempName oF), .renameInto oF] ∧
    (putCore o oF aF size body now fs).fs.lookup aF = fs.lookup aF := by
  have hw : (FileContent.raw body).statSize ≠ size := by
    simpa [FileContent.statSize] using h
  simp only [putCore, writeAtomic, writeTempFile]
  rw [if_neg h0, if_pos hw]
  refine ⟨⟨_, rfl⟩, rfl, ?_⟩
  rw [FS.lookup_set_ne _ _ _ _ (Ne.symm hao), FS.lookup_erase_ne _ _ _ (Ne.symm hat),
    FS.lookup_set_ne _ _ _ _ (Ne.symm hat)]

/-- A decoded wire request (`wire.Request`). `body` is attached by the read
loop after decoding the second framed value of a `put`. -/
structure Request where
  id : Int := 0
  command : String := ""
  actionID : Bytes := []
  objectID : Bytes := []
  bodySize : Int := 0
  body : Option Bytes := none
deriving DecidableEq, Repr

/-- A wire response (`wire.Response`); zero values match Go's zero values, with
`none` standing for an empty `Err` string and a nil `OutputID` slice. -/
structure Response where
  id : Int := 0
  err : Option String := none
  miss : Bool := false
  outputID : Option Bytes := none
  size : Int := 0
  timeNanos : Int := 0
  diskPath : String := ""
deriving DecidableEq, Repr

/-- Outcome of `p.cache.Get(ctx, actionID)` on the remote tier
(`GCSCache.Get`, signature `(string, io.Reader, int, error)`): either an error,
or an outputID with the size and bytes its reader delivers. -/
inductive RemoteGet where
  | err (msg : String)
  | ok (outputID : String) (size : Int) (body : Bytes)

/-- The remote tier as an oracle keyed by hex actionID. -/
abbrev Remote := String → RemoteGet

/-- Result of `Process.handleGet`: the response under construction, the error
returned to `Run`'s goroutine (which copies it into `res.Err`), the file
system after any promotion, and the increments applied to the hit counters. -/
structure GetResult where
  res : Response
  err : Option String
  fs : FS
  hitsLocal : Int
  hitsRemote : Int

/-- Tail of `Process.handleGet` after `outputPath` is chosen: `os.Stat` the
payload, treat not-exist as a miss, and fill size, mod time and disk path. All
files the model can contain are regular, so the `!fi.Mode().IsRegular()` branch
is unreachable in the model. -/
def finishGet (res : Response) (outputPath : String) (fs : FS) (hl hr : Int) :
    GetResult :=
  match fs.lookup outputPath with
  | none => ⟨{res with miss := true}, none, fs, hl, hr⟩
  | some pf =>
    ⟨{ res with
       size := pf.content.statSize,
       timeNanos := pf.mtime,
       diskPath := outputPath }, none, fs, hl, hr⟩

/-- Model of `Process.handleGet`. `dir` is `p.dir` (`os.UserCacheDir()`); the
action file is `filepath.Join(p.dir, "gocacheprog", "a-"+hex(actionID))`. -/
def handleGet (dir : String) (remote : Remote) (now : Int) (fs : FS) (req : Request) :
    GetResult :=
  let actionID := hexEncode req.actionID
  let cacheDir := dir ++ "/gocacheprog"
  let res : Response := {id := req.id}
  match fs.lookup (aFile cacheDir actionID) with
  | none =>
    match remote actionID with
    | .err msg => ⟨{res with miss := true}, some msg, fs, 0, 0⟩
    | .ok outputID rsize rbody =>
      if outputID = "" then
        ⟨{res with miss := true}, none, fs, 0, 0⟩
      else
        match hexDecodeString outputID with
        | none => ⟨{res with miss := true}, some "invalid OutputID", fs, 0, 0⟩
        | some obs =>
          let res := {res with outputID := some obs}
          let sr := savefile dir actionID outputID rsize rbody now fs
          match sr.result with
          | .error e =>
            ⟨{res with miss := true}, some ("unable to save to file: " ++ e), sr.fs, 0, 0⟩
          | .ok outputPath => finishGet res outputPath sr.fs 0 1
  | some f =>
    match f.content with
    | .raw _ => ⟨{res with miss := true}, none, fs, 0, 0⟩
    | .index ie =>
      match hexDecodeString ie.outputID with
      | none => ⟨{res with miss := true}, none, fs, 0, 0⟩
      | some _ => finishGet res (oFile cacheDir ie.outputID) fs 1 0

/-- An upload scheduled by `handlePut`'s `go func` (tracked by `p.gwg`). -/
structure Upload where
  actionID : String
  objectID : String
  size : Int
  body : Bytes
deriving DecidableEq, Repr

/-- Result of `Process.handlePut`. -/
structure PutResult where
  res : Response
  err : Option String
  fs : FS
  uploads : List Upload

/-- Model of `Process.handlePut`: write locally through `savefile` (the body
teed into `copyBuf`), answer from the local result, and schedule a background
upload of the teed bytes exactly when `req.BodySize >= p.minUploadSize`. -/
def handlePut (dir : String) (minUploadSize : Int) (now : Int) (fs : FS) (req : Request) :
    PutResult :=
  let actionID := hexEncode req.actionID
  let objectID := hexEncode req.objectID
  let res : Response := {id := req.id}
  let bodyBytes := req.body.getD []
  let sr := savefile dir actionID objectID req.bodySize bodyBytes now fs
  match sr.result with
  | .error e => ⟨res, some ("unable to save to file: " ++ e), sr.fs, []⟩
  | .ok diskPath =>
    if req.bodySize ≥ minUploadSize then
      ⟨{res with diskPath := diskPath, size := req.bodySize}, none, sr.fs,
        [⟨actionID, objectID, req.bodySize, sr.consumed⟩]⟩
    else
      ⟨{res with diskPath := diskPath, size := req.bodySize}, none, sr.fs, []⟩

/-- Result of `Process.handleRequest` plus the counter increments taken around
it (`miss` is incremented by the `get` arm when `res.Miss` is set). -/
structure HandleResult where
  res : Response
  err : Option String
  fs : FS
  hitsLocal : Int
  hitsRemote : Int
  missCount : Int
  uploads : List Upload

/-- Model of `Process.handleRequest`: dispatch on the command; the default arm
returns `ErrUnknownCommand`. -/
def handleRequest (dir : String) (minUploadSize : Int) (remote : Remote) (now : Int)
    (fs : FS) (req : Request) : HandleResult :=
  if req.command = "close" then
    ⟨{id := req.id}, none, fs, 0, 0, 0, []⟩
  else if req.command = "get" then
    let g := handleGet dir remote now fs req
    ⟨g.res, g.err, g.fs, g.hitsLocal, g.hitsRemote, if g.res.miss then 1 else 0, []⟩
  else if req.command = "put" then
    let pr := handlePut dir minUploadSize now fs req
    ⟨pr.res, pr.err, pr.fs, 0, 0, 0, pr.uploads⟩
  else
    ⟨{id := req.id}, some "unknown command", fs, 0, 0, 0, []⟩

/-- The response `Run`'s goroutine writes to stdout: a non-nil handler error is
copied into `res.Err` before encoding. -/
def emitted (r : Response) (e : Option String) : Response :=
  match e with
  | none => r
  | some m => {r with err := some m}

/-- One framed JSON value on stdin, as seen by the `json.Decoder`. -/
inductive Val where
  | vreq (r : Request)
  | vbytes (b : Bytes)
  | vbad
deriving DecidableEq, Repr

/-- Decoding a framed value into a `wire.Request` (`jd.Decode(&req)`). -/
def decodeRequest : Val → Option Request
  | .vreq r => some r
  | _ => none

/-- Decoding a framed value into a `[]byte` (`jd.Decode(&bodyb)`). -/
def decodeBytes : Val → Option Bytes
  | .vbytes b => some b
  | _ => none

/-- How `Process.Run`'s read loop ends: clean end of stream (`io.EOF`, `Run`
returns nil), a request decode error (`Run` returns it and drains), or
`log.Fatal` (process terminated, nothing drained, no further reads). -/
inductive Terminal where
  | eof
  | decodeFail
  | fatal (msg : String)
deriving DecidableEq, Repr

/-- Model of `Process.Run`'s read loop: the requests it dispatches to worker
goroutines, in dispatch order, and how it ends. A request whose command is not
put/get/close is skipped (`continue`); a `put` with `BodySize > 0` must be
immediately followed by a framed byte slice of exactly that length, anything
else is `log.Fatal`. -/
def readLoop : List Val → List Request × Terminal
  | [] => ([], .eof)
  | v :: rest =>
    match decodeRequest v with
    | none => ([], .decodeFail)
    | some req =>
      if req.command ≠ "put" ∧ req.command ≠ "get" ∧ req.command ≠ "close" then
        readLoop rest
      else if req.command = "put" ∧ req.bodySize > 0 then
        match rest with
        | [] => ([], .fatal "EOF while reading request body")
        | bv :: rest' =>
          match decodeBytes bv with
          | none => ([], .fatal "request body decode error")
          | some bodyb =>
            if (bodyb.length : Int) ≠ req.bodySize then
              ([], .fatal "only got fewer bytes than declared")
            else
              let r := readLoop rest'
              ({req with body := some bodyb} :: r.1, r.2)
      else
        let r := readLoop rest
        (req :: r.1, r.2)

/-- The process's counters (`p.hits_local`, `p.hits_remote`, `p.miss`,
`p.puts`), logged at shutdown. -/
structure Counters where
  hits_local : Int := 0
  hits_remote : Int := 0
  miss : Int := 0
  puts : Int := 0
deriving DecidableEq, Repr

/-- Accumulated state of a session: file system, counters, the responses
written to stdout and the scheduled background uploads. -/
structure SessionState where
  fs : FS
  counters : Counters
  responses : List Response
  uploads : List Upload

/-- Handling one dispatched request end to end (worker goroutine body). -/
def sessionStep (dir : String) (minUploadSize : Int) (remote : Remote) (now : Int)
    (st : SessionState) (req : Request) : SessionState :=
  let h := handleRequest dir minUploadSize remote now st.fs req
  { fs := h.fs,
    counters := { hits_local := st.counters.hits_local + h.hitsLocal,
                  hits_remote := st.counters.hits_remote + h.hitsRemote,
                  miss := st.counters.miss + h.missCount,
                  puts := st.counters.puts },
    responses := st.responses ++ [emitted h.res h.err],
    uploads := st.uploads ++ h.uploads }

/-- A whole `Process.Run` session over a framed input stream, with the
dispatched requests handled in dispatch order (one serialization of the
concurrent execution; no claim under verification depends on interleaving). -/
def runSession (dir : String) (minUploadSize : Int) (remote : Remote) (now : Int)
    (input : List Val) (fs0 : FS) : SessionState × Terminal :=
  let r := readLoop input
  (r.1.foldl (sessionStep dir minUploadSize remote now) ⟨fs0, {}, [], []⟩, r.2)

/-- Number of `p.puts` increments contributed by the upload goroutines: the
only increment site of `p.puts` is `if err != nil { atomic.AddInt64(&p.puts, 1) }`
after `p.cache.Put` returns, so each scheduled upload contributes one exactly
when the remote put fails. `remotePut` is the oracle for `p.cache.Put`. -/
def uploadPutsDelta (remotePut : Upload → Option String) (us : List Upload) : Int :=
  ((us.filter fun u => (remotePut u).isSome).length : Int)

/-- Final value of the `puts` counter reported by the shutdown log line
`log.Printf("hits_local: %v, hits_remote: %v, misses: %v, puts: %v", ...)`. -/
def finalPuts (remotePut : Upload → Option String) (st : SessionState) : Int :=
  st.counters.puts + uploadPutsDelta remotePut st.uploads

/-- Successful result of `DiskCache.Get`: outputID, payload path, recorded
size, and the reader handed back (`io.NopCloser(bytes.NewReader(ij))`). -/
structure DiskGetOk where
  outputID : String
  diskPath : String
  size : Int
  reader : FileContent
deriving DecidableEq, Repr

/-- Model of `DiskCache.Get(ctx, actionID)` in package disk: read the index
entry at `a-<actionID>`, unmarshal it, validate the hex of its outputID, and
return the recorded fields together with a reader over `ij` — the index file's
own bytes. -/
def DiskCache.Get (dir : String) (fs : FS) (actionID : String) :
    Except String DiskGetOk :=
  match fs.lookup (aFile dir actionID) with
  | none => .error "file does not exist"
  | some f =>
    match f.content with
    | .raw _ => .error "invalid JSON"
    | .index ie =>
      match hexDecodeString ie.outputID with
      | none => .error "invalid hex OutputID"
      | some _ => .ok ⟨ie.outputID, oFile dir ie.outputID, ie.size, f.content⟩

theorem isHexDigit_hexDigitChar (n : Nat) : isHexDigit (hexDigitChar n) = true := by
  have h : n % 16 < 16 := Nat.mod_lt _ (by decide)
  unfold hexDigitChar
  revert h
  generalize n % 16 = m
  intro h
  interval_cases m <;> decide

theorem hexEncode_data (bs : Bytes) :
    (hexEncode bs).data = bs.flatMap fun b => [hexDigitChar (b / 16), hexDigitChar b] :=
  rfl

theorem hexEncode_all_hex (bs : Bytes) : (hexEncode bs).data.all isHexDigit = true := by
  rw [hexEncode_data]
  induction bs with
  | nil => rfl
  | cons b tl ih =>
    simp only [List.flatMap_cons, List.all_append] at ih ⊢
    simp [List.all, isHexDigit_hexDigitChar, ih]

theorem hexEncode_data_length (bs : Bytes) :
    (hexEncode bs).data.length = 2 * bs.length := by
  rw [hexEncode_data]
  induction bs with
  | nil => rfl
  | cons b tl ih =>
    simp only [List.flatMap_cons, List.length_append, List.length_cons,
      List.length_nil] at ih ⊢
    omega

theorem hexDecodeString_hexEncode_isSome (bs : Bytes) :
    ∃ l, hexDecodeString (hexEncode bs) = some l := by
  refine ⟨hexPairs (hexEncode bs).data, ?_⟩
  unfold hexDecodeString
  rw [if_pos]
  rw [hexEncode_all_hex, hexEncode_data_length]
  simp [Nat.mul_mod_right]

theorem savefile_ok (dir actionID objectID : String) (size : Int) (body : Bytes)
    (now : Int) (fs : FS) (h : (body.length : Int) = size) :
    (savefile dir actionID objectID size body now fs).result =
      .ok (oFile (dir ++ "/gocacheprog") objectID) ∧
    (savefile dir actionID objectID size body now fs).consumed = body ∧
    (savefile dir actionID objectID size body now fs).fs.lookup
        (aFile (dir ++ "/gocacheprog") actionID) =
      some ⟨.index ⟨1, objectID, size, now⟩, now⟩ ∧
    (savefile dir actionID objectID size body now fs).fs.lookup
        (oFile (dir ++ "/gocacheprog") objectID) =
      some ⟨.raw body, now⟩ := by
  have hp := putCore_ok objectID (oFile (dir ++ "/gocacheprog") objectID)
    (aFile (dir ++ "/gocacheprog") actionID) size body now fs h
    (oFile_ne_aFile _ _ _) (oFile_ne_tempName_aFile _ _ _)
  exact ⟨hp.1, hp.2.1, hp.2.2.2.1, hp.2.2.2.2⟩

theorem savefile_mismatch (dir actionID objectID : String) (size : Int) (body : Bytes)
    (now : Int) (fs : FS) (h0 : size ≠ 0) (h : (body.length : Int) ≠ size) :
    (∃ e, (savefile dir actionID objectID size body now fs).result = .error e) ∧
    (savefile dir actionID objectID size body now fs).fs.lookup
        (aFile (dir ++ "/gocacheprog") actionID) =
      fs.lookup (aFile (dir ++ "/gocacheprog") actionID) := by
  have hp := putCore_mismatch objectID (oFile (dir ++ "/gocacheprog") objectID)
    (aFile (dir ++ "/gocacheprog") actionID) size body now fs h0 h
    (Ne.symm (oFile_ne_aFile _ _ _)) (aFile_ne_tempName_oFile _ _ _)
  exact ⟨hp.1, hp.2.2⟩

theorem putCore_zero (o oF aF : String) (body : Bytes) (now : Int) (fs : FS) :
    (putCore o oF aF 0 body now fs).result = .ok oF ∧
    (putCore o oF aF 0 body now fs).trace =
      [.createEmpty oF, .createTemp (tempName aF), .renameInto aF] :=
  ⟨rfl, rfl⟩

/-- C1: the Content Store put — `DiskCache.Put` and its line-for-line copy
`savefile` — writes the payload file first and the index entry second, each by
write-to-temporary-file-then-atomic-rename, with the payload special-cased to a
direct create/truncate when `size == 0`; and whenever the number of payload
bytes copied from the body differs from the declared size it returns an error
without having written the index entry. -/
theorem claim_C1_put_order_and_short_write (dir actionID objectID : String)
    (size : Int) (body : Bytes) (now : Int) (fs : FS) :
    (size = 0 →
      (DiskCache.Put dir actionID objectID size body now fs).result =
        .ok (oFile dir objectID) ∧
      (DiskCache.Put dir actionID objectID size body now fs).trace =
        [.createEmpty (oFile dir objectID),
         .createTemp (tempName (aFile dir actionID)),
         .renameInto (aFile dir actionID)] ∧
      (savefile dir actionID objectID size body now fs).result =
        .ok (oFile (dir ++ "/gocacheprog") objectID) ∧
      (savefile dir actionID objectID size body now fs).trace =
        [.createEmpty (oFile (dir ++ "/gocacheprog") objectID),
         .createTemp (tempName (aFile (dir ++ "/gocacheprog") actionID)),
         .renameInto (aFile (dir ++ "/gocacheprog") actionID)]) ∧
    (size ≠ 0 → (body.length : Int) = size →
      (DiskCache.Put dir actionID objectID size body now fs).result =
        .ok (oFile dir objectID) ∧
      (DiskCache.Put dir actionID objectID size body now fs).trace =
        [.createTemp (tempName (oFile dir objectID)), .renameInto (oFile dir objectID),
         .createTemp (tempName (aFile dir actionID)), .renameInto (aFile dir actionID)] ∧
      (savefile dir actionID objectID size body now fs).result =
        .ok (oFile (dir ++ "/gocacheprog") objectID) ∧
      (savefile dir actionID objectID size body now fs).trace =
        [.createTemp (tempName (oFile (dir ++ "/gocacheprog") objectID)),
         .renameInto (oFile (dir ++ "/gocacheprog") objectID),
         .createTemp (tempName (aFile (dir ++ "/gocacheprog") actionID)),
         .renameInto (aFile (dir ++ "/gocacheprog") actionID)]) ∧
    (size ≠ 0 → (body.length : Int) ≠ size →
      (DiskCache.Put dir actionID objectID size body now fs).result.isOk = false ∧
      (DiskCache.Put dir actionID objectID size body now fs).fs.lookup
          (aFile dir actionID) = fs.lookup (aFile dir actionID) ∧
      (DiskCache.Put dir actionID objectID size body now fs).trace =
        [.createTemp (tempName (oFile dir objectID)), .renameInto (oFile dir objectID)] ∧
      (savefile dir actionID objectID size body now fs).result.isOk = false ∧
      (savefile dir actionID objectID size body now fs).fs.lookup
          (aFile (dir ++ "/gocacheprog") actionID) =
        fs.lookup (aFile (dir ++ "/gocacheprog") actionID) ∧
      (savefile dir actionID objectID size body now fs).trace =
        [.createTemp (tempName (oFile (dir ++ "/gocacheprog") objectID)),
         .renameInto (oFile (dir ++ "/gocacheprog") objectID)]) := by
  simp only [DiskCache.Put, savefile]
  refine ⟨?_, ?_, ?_⟩
  · intro hsz
    subst hsz
    exact ⟨(putCore_zero _ _ _ _ _ _).1, (putCore_zero _ _ _ _ _ _).2,
           (putCore_zero _ _ _ _ _ _).1, (putCore_zero _ _ _ _ _ _).2⟩
  · intro hsz h
    have h1 := putCore_ok objectID (oFile dir objectID) (aFile dir actionID)
      size body now fs h (oFile_ne_aFile _ _ _) (oFile_ne_tempName_aFile _ _ _)
    have h2 := putCore_ok objectID (oFile (dir ++ "/gocacheprog") objectID)
      (aFile (dir ++ "/gocacheprog") actionID) size body now fs h
      (oFile_ne_aFile _ _ _) (oFile_ne_tempName_aFile _ _ _)
    exact ⟨h1.1, (h1.2.2.1).trans (if_neg hsz), h2.1, (h2.2.2.1).trans (if_neg hsz)⟩
  · intro hsz h
    have h1 := putCore_mismatch objectID (oFile dir objectID) (aFile dir actionID)
      size body now fs hsz h (Ne.symm (oFile_ne_aFile _ _ _))
      (aFile_ne_tempName_oFile _ _ _)
    have h2 := putCore_mismatch objectID (oFile (dir ++ "/gocacheprog") objectID)
      (aFile (dir ++ "/gocacheprog") actionID) size body now fs hsz h
      (Ne.symm (oFile_ne_aFile _ _ _)) (aFile_ne_tempName_oFile _ _ _)
    obtain ⟨⟨e1, he1⟩, ht1, hl1⟩ := h1
    obtain ⟨⟨e2, he2⟩, ht2, hl2⟩ := h2
    refine ⟨?_, hl1, ht1, ?_, hl2, ht2⟩
    · rw [he1]
      rfl
    · rw [he2]
      rfl

/-- Witness for C1: the zero-size, matching-size and mismatched-size cases of
the theorem, at concrete inputs. -/
theorem claim_C1_put_order_and_short_write_witness :
    ((DiskCache.Put "/c" "aa" "bb" 0 [] 0 FS.empty).result = .ok (oFile "/c" "bb") ∧
     (DiskCache.Put "/c" "aa" "bb" 0 [] 0 FS.empty).trace =
       [.createEmpty (oFile "/c" "bb"), .createTemp (tempName (aFile "/c" "aa")),
        .renameInto (aFile "/c" "aa")] ∧
     (savefile "/c" "aa" "bb" 0 [] 0 FS.empty).result =
       .ok (oFile ("/c" ++ "/gocacheprog") "bb") ∧
     (savefile "/c" "aa" "bb" 0 [] 0 FS.empty).trace =
       [.createEmpty (oFile ("/c" ++ "/gocacheprog") "bb"),
        .createTemp (tempName (aFile ("/c" ++ "/gocacheprog") "aa")),
        .renameInto (aFile ("/c" ++ "/gocacheprog") "aa")]) ∧
    ((DiskCache.Put "/c" "aa" "bb" 2 [7, 8] 0 FS.empty).result = .ok (oFile "/c" "bb") ∧
     (DiskCache.Put "/c" "aa" "bb" 2 [7, 8] 0 FS.empty).trace =
       [.createTemp (tempName (oFile "/c" "bb")), .renameInto (oFile "/c" "bb"),
        .createTemp (tempName (aFile "/c" "aa")), .renameInto (aFile "/c" "aa")] ∧
     (savefile "/c" "aa" "bb" 2 [7, 8] 0 FS.empty).result =
       .ok (oFile ("/c" ++ "/gocacheprog") "bb") ∧
     (savefile "/c" "aa" "bb" 2 [7, 8] 0 FS.empty).trace =
       [.createTemp (tempName (oFile ("/c" ++ "/gocacheprog") "bb")),
        .renameInto (oFile ("/c" ++ "/gocacheprog") "bb"),
        .createTemp (tempName (aFile ("/c" ++ "/gocacheprog") "aa")),
        .renameInto (aFile ("/c" ++ "/gocacheprog") "aa")]) ∧
    ((DiskCache.Put "/c" "aa" "bb" 3 [1] 0 FS.empty).result.isOk = false ∧
     (DiskCache.Put "/c" "aa" "bb" 3 [1] 0 FS.empty).fs.lookup (aFile "/c" "aa") =
       FS.empty.lookup (aFile "/c" "aa") ∧
     (DiskCache.Put "/c" "aa" "bb" 3 [1] 0 FS.empty).trace =
       [.createTemp (tempName (oFile "/c" "bb")), .renameInto (oFile "/c" "bb")] ∧
     (savefile "/c" "aa" "bb" 3 [1] 0 FS.empty).result.isOk = false ∧
     (savefile "/c" "aa" "bb" 3 [1] 0 FS.empty).fs.lookup
         (aFile ("/c" ++ "/gocacheprog") "aa") =
       FS.empty.lookup (aFile ("/c" ++ "/gocacheprog") "aa") ∧
     (savefile "/c" "aa" "bb" 3 [1] 0 FS.empty).trace =
       [.createTemp (tempName (oFile ("/c" ++ "/gocacheprog") "bb")),
        .renameInto (oFile ("/c" ++ "/gocacheprog") "bb")]) :=
  ⟨(claim_C1_put_order_and_short_write "/c" "aa" "bb" 0 [] 0 FS.empty).1 rfl,
   (claim_C1_put_order_and_short_write "/c" "aa" "bb" 2 [7, 8] 0 FS.empty).2.1
     (by decide) (by decide),
   (claim_C1_put_order_and_short_write "/c" "aa" "bb" 3 [1] 0 FS.empty).2.2
     (by decide) (by decide)⟩

/-- C2: a `put(actionID, objectID, size, bytes)` (with the framing invariant
`len(bytes) == size` that `Run` enforces before dispatch) followed by a
`get(actionID)` with no interleaving writes yields a response with
`miss = false` whose reported size equals `size`, and the file at the returned
disk path holds exactly `bytes`. -/
theorem claim_C2_put_get_round_trip (dir : String) (minUp : Int) (remote : Remote)
    (now now' : Int) (fs : FS) (preq greq : Request)
    (hbody : ((preq.body.getD []).length : Int) = preq.bodySize)
    (haid : greq.actionID = preq.actionID) :
    (handleGet dir remote now' (handlePut dir minUp now fs preq).fs greq).res.miss = false ∧
    (handleGet dir remote now' (handlePut dir minUp now fs preq).fs greq).res.size =
      preq.bodySize ∧
    (handleGet dir remote now' (handlePut dir minUp now fs preq).fs greq).res.diskPath =
      oFile (dir ++ "/gocacheprog") (hexEncode preq.objectID) ∧
    (handleGet dir remote now' (handlePut dir minUp now fs preq).fs greq).fs.lookup
        (oFile (dir ++ "/gocacheprog") (hexEncode preq.objectID)) =
      some ⟨.raw (preq.body.getD []), now⟩ := by
  obtain ⟨hres, hcons, hla, hlo⟩ := savefile_ok dir (hexEncode preq.actionID)
    (hexEncode preq.objectID) preq.bodySize (preq.body.getD []) now fs hbody
  have hput : (handlePut dir minUp now fs preq).fs =
      (savefile dir (hexEncode preq.actionID) (hexEncode preq.objectID)
        preq.bodySize (preq.body.getD []) now fs).fs := by
    simp only [handlePut, hres]
    split <;> rfl
  rw [hput]
  obtain ⟨l, hl⟩ := hexDecodeString_hexEncode_isSome preq.objectID
  simp [handleGet, haid, hla, hl, finishGet, hlo, FileContent.statSize, hbody]

/-- Witness for C2: a concrete put of three bytes followed by a get of the same
actionID. -/
theorem claim_C2_put_get_round_trip_witness :
    (handleGet "/c" (fun _ => .err "down") 9
        (handlePut "/c" 15000 5 FS.empty
          { id := 1, command := "put", actionID := [0xAA], objectID := [0xBB],
            bodySize := 3, body := some [1, 2, 3] }).fs
        { id := 2, command := "get", actionID := [0xAA] }).res.miss = false ∧
    (handleGet "/c" (fun _ => .err "down") 9
        (handlePut "/c" 15000 5 FS.empty
          { id := 1, command := "put", actionID := [0xAA], objectID := [0xBB],
            bodySize := 3, body := some [1, 2, 3] }).fs
        { id := 2, command := "get", actionID := [0xAA] }).res.size = 3 ∧
    (handleGet "/c" (fun _ => .err "down") 9
        (handlePut "/c" 15000 5 FS.empty
          { id := 1, command := "put", actionID := [0xAA], objectID := [0xBB],
            bodySize := 3, body := some [1, 2, 3] }).fs
        { id := 2, command := "get", actionID := [0xAA] }).res.diskPath =
      oFile ("/c" ++ "/gocacheprog") (hexEncode [0xBB]) ∧
    (handleGet "/c" (fun _ => .err "down") 9
        (handlePut "/c" 15000 5 FS.empty
          { id := 1, command := "put", actionID := [0xAA], objectID := [0xBB],
            bodySize := 3, body := some [1, 2, 3] }).fs
        { id := 2, command := "get", actionID := [0xAA] }).fs.lookup
        (oFile ("/c" ++ "/gocacheprog") (hexEncode [0xBB])) =
      some ⟨.raw [1, 2, 3], 5⟩ :=
  claim_C2_put_get_round_trip "/c" 15000 (fun _ => .err "down") 5 9 FS.empty
    { id := 1, command := "put", actionID := [0xAA], objectID := [0xBB],
      bodySize := 3, body := some [1, 2, 3] }
    { id := 2, command := "get", actionID := [0xAA] }
    (by decide) rfl

/-- C3: a put request declaring `BodySize > 0` whose immediately following
framed body value decodes to a different number of bytes is fatal
(`log.Fatalf`): the read loop dispatches no request (so no response is sent for
it) and reads nothing further, whatever else follows on the stream. -/
theorem claim_C3_framing_mismatch_fatal (req : Request) (bodyb : Bytes)
    (rest : List Val) (hc : req.command = "put") (hs : req.bodySize > 0)
    (hlen : (bodyb.length : Int) ≠ req.bodySize) :
    readLoop (.vreq req :: .vbytes bodyb :: rest) =
      ([], .fatal "only got fewer bytes than declared") := by
  simp only [readLoop, decodeRequest, decodeBytes]
  rw [if_neg (by simp [hc]), if_pos ⟨hc, hs⟩, if_pos hlen]

/-- Witness for C3: a put declaring ten body bytes followed by only five. -/
theorem claim_C3_framing_mismatch_fatal_witness :
    readLoop [.vreq { id := 9, command := "put", bodySize := 10 },
              .vbytes [1, 2, 3, 4, 5]] =
      ([], .fatal "only got fewer bytes than declared") :=
  claim_C3_framing_mismatch_fatal { id := 9, command := "put", bodySize := 10 }
    [1, 2, 3, 4, 5] [] rfl (by decide) (by decide)

/-- C4 counterexample: with no local index entry and a remote tier that
returns an I/O error, `handleGet` sets `miss = true` but also returns the
error, which `Run`'s goroutine copies into the response's `Err` field — so the
emitted response's error field is not empty, contrary to the claim. -/
theorem claim_C4_counterexample :
    (emitted
        (handleGet "/c" (fun _ => .err "remote unavailable") 0 FS.empty
          { id := 3, command := "get", actionID := [0xCC] }).res
        (handleGet "/c" (fun _ => .err "remote unavailable") 0 FS.empty
          { id := 3, command := "get", actionID := [0xCC] }).err).miss = true ∧
    (emitted
        (handleGet "/c" (fun _ => .err "remote unavailable") 0 FS.empty
          { id := 3, command := "get", actionID := [0xCC] }).res
        (handleGet "/c" (fun _ => .err "remote unavailable") 0 FS.empty
          { id := 3, command := "get", actionID := [0xCC] }).err).err =
      some "remote unavailable" :=
  ⟨rfl, rfl⟩

/-- C4 (amended): when the remote tier's Get fails on a local miss, the
response has `miss = true` but the remote error is surfaced: it becomes the
handler's returned error and is copied into the response's `Err` field. -/
theorem claim_C4_remote_error_miss_and_surfaced (dir : String) (remote : Remote)
    (now : Int) (fs : FS) (req : Request) (msg : String)
    (hmiss : fs.lookup (aFile (dir ++ "/gocacheprog") (hexEncode req.actionID)) = none)
    (hrem : remote (hexEncode req.actionID) = .err msg) :
    (handleGet dir remote now fs req).res.miss = true ∧
    (handleGet dir remote now fs req).err = some msg ∧
    (emitted (handleGet dir remote now fs req).res
        (handleGet dir remote now fs req).err).err = some msg := by
  simp [handleGet, hmiss, hrem, emitted]

/-- Witness for C4 (amended): a concrete local miss with a failing remote. -/
theorem claim_C4_remote_error_miss_and_surfaced_witness :
    (handleGet "/c" (fun _ => .err "boom") 0 FS.empty
        { id := 4, command := "get", actionID := [0xCC] }).res.miss = true ∧
    (handleGet "/c" (fun _ => .err "boom") 0 FS.empty
        { id := 4, command := "get", actionID := [0xCC] }).err = some "boom" ∧
    (emitted (handleGet "/c" (fun _ => .err "boom") 0 FS.empty
          { id := 4, command := "get", actionID := [0xCC] }).res
        (handleGet "/c" (fun _ => .err "boom") 0 FS.empty
          { id := 4, command := "get", actionID := [0xCC] }).err).err = some "boom" :=
  claim_C4_remote_error_miss_and_surfaced "/c" (fun _ => .err "boom") 0 FS.empty
    { id := 4, command := "get", actionID := [0xCC] } "boom" rfl rfl

/-- C5: under the framing invariant `len(body) == BodySize`, a put schedules
exactly one background upload of the teed body bytes when
`BodySize >= minUploadSize` and none when it is below the threshold, and in
either case the response is built from the local write alone (local disk path
and the declared size, no error). -/
theorem claim_C5_upload_threshold (dir : String) (minUp : Int) (now : Int) (fs : FS)
    (req : Request) (hbody : ((req.body.getD []).length : Int) = req.bodySize) :
    (req.bodySize ≥ minUp →
      (handlePut dir minUp now fs req).uploads =
        [⟨hexEncode req.actionID, hexEncode req.objectID, req.bodySize,
          req.body.getD []⟩]) ∧
    (req.bodySize < minUp → (handlePut dir minUp now fs req).uploads = []) ∧
    (handlePut dir minUp now fs req).err = none ∧
    (handlePut dir minUp now fs req).res.diskPath =
      oFile (dir ++ "/gocacheprog") (hexEncode req.objectID) ∧
    (handlePut dir minUp now fs req).res.size = req.bodySize := by
  obtain ⟨hres, hcons, hla, hlo⟩ := savefile_ok dir (hexEncode req.actionID)
    (hexEncode req.objectID) req.bodySize (req.body.getD []) now fs hbody
  simp only [handlePut, hres]
  refine ⟨?_, ?_, ?_, ?_, ?_⟩
  · intro hge
    rw [if_pos hge]
    simp [hcons]
  · intro hlt
    rw [if_neg (not_le.mpr hlt)]
  · split <;> rfl
  · split <;> rfl
  · split <;> rfl

/-- Witness for C5: a three-byte put above a threshold of two schedules the
upload; the same put below a threshold of 15000 schedules none. -/
theorem claim_C5_upload_threshold_witness :
    (handlePut "/c" 2 0 FS.empty
        { id := 1, command := "put", actionID := [0xAA], objectID := [0xBB],
          bodySize := 3, body := some [1, 2, 3] }).uploads =
      [⟨hexEncode [0xAA], hexEncode [0xBB], 3, [1, 2, 3]⟩] ∧
    (handlePut "/c" 15000 0 FS.empty
        { id := 1, command := "put", actionID := [0xAA], objectID := [0xBB],
          bodySize := 3, body := some [1, 2, 3] }).uploads = [] :=
  ⟨(claim_C5_upload_threshold "/c" 2 0 FS.empty
      { id := 1, command := "put", actionID := [0xAA], objectID := [0xBB],
        bodySize := 3, body := some [1, 2, 3] } (by decide)).1 (by decide),
   (claim_C5_upload_threshold "/c" 15000 0 FS.empty
      { id := 1, command := "put", actionID := [0xAA], objectID := [0xBB],
        bodySize := 3, body := some [1, 2, 3] } (by decide)).2.1 (by decide)⟩

/-- C6 counterexample: a request with the unknown command "frob" receives no
response at all — `Run` skips it with `continue` before dispatch, so the
session's response list contains nothing for id 7 (here it is empty but for
the following close request), refuting the claim that a per-request error
response is sent. -/
theorem claim_C6_counterexample :
    (runSession "/c" 15000 (fun _ => .err "down") 0
        [.vreq { id := 7, command := "frob" }, .vreq { id := 8, command := "close" }]
        FS.empty).1.responses = [{ id := 8 }] ∧
    (runSession "/c" 15000 (fun _ => .err "down") 0
        [.vreq { id := 7, command := "frob" }, .vreq { id := 8, command := "close" }]
        FS.empty).2 = .eof :=
  ⟨rfl, rfl⟩

/-- C6 (amended): a request whose command is not get/put/close is silently
skipped — it is never dispatched and gets no response — and the engine simply
continues with the rest of the stream; the unknown command is never fatal. The
`ErrUnknownCommand` arm of `handleRequest` is unreachable from `Run`. -/
theorem claim_C6_unknown_command_skipped (req : Request) (rest : List Val)
    (h1 : req.command ≠ "put") (h2 : req.command ≠ "get") (h3 : req.command ≠ "close") :
    readLoop (.vreq req :: rest) = readLoop rest := by
  simp only [readLoop, decodeRequest]
  rw [if_pos ⟨h1, h2, h3⟩]

/-- Witness for C6 (amended): an unknown "frob" command before a close. -/
theorem claim_C6_unknown_command_skipped_witness :
    readLoop [.vreq { id := 7, command := "frob" }, .vreq { id := 8, command := "close" }] =
      readLoop [.vreq { id := 8, command := "close" }] :=
  claim_C6_unknown_command_skipped { id := 7, command := "frob" }
    [.vreq { id := 8, command := "close" }] (by decide) (by decide) (by decide)

/-- C7 counterexample: after a concrete put of object `0xBB` under action
`0xAA`, a get served as a local hit (hits_local incremented, miss false) has
`OutputID = none` in its response — `handleGet`'s local branch never copies the
stored outputID into the response, contrary to the claim. -/
theorem claim_C7_counterexample :
    (handleGet "/c" (fun _ => .err "down") 9
        (handlePut "/c" 15000 5 FS.empty
          { id := 1, command := "put", actionID := [0xAA], objectID := [0xBB],
            bodySize := 3, body := some [1, 2, 3] }).fs
        { id := 2, command := "get", actionID := [0xAA] }).res.miss = false ∧
    (handleGet "/c" (fun _ => .err "down") 9
        (handlePut "/c" 15000 5 FS.empty
          { id := 1, command := "put", actionID := [0xAA], objectID := [0xBB],
            bodySize := 3, body := some [1, 2, 3] }).fs
        { id := 2, command := "get", actionID := [0xAA] }).hitsLocal = 1 ∧
    (handleGet "/c" (fun _ => .err "down") 9
        (handlePut "/c" 15000 5 FS.empty
          { id := 1, command := "put", actionID := [0xAA], objectID := [0xBB],
            bodySize := 3, body := some [1, 2, 3] }).fs
        { id := 2, command := "get", actionID := [0xAA] }).res.outputID = none :=
  ⟨rfl, rfl, rfl⟩

/-- C7 (amended): a get served as a local hit returns size, modification time,
disk path and `miss = false`, but leaves the response's `OutputID` unset
(`none`); only the remote-hit branch populates `OutputID`. -/
theorem claim_C7_local_hit_fields (dir : String) (remote : Remote) (now : Int)
    (fs : FS) (req : Request) (ie : IndexEntry) (mt : Int) (b : Bytes) (pmt : Int)
    (hlk : fs.lookup (aFile (dir ++ "/gocacheprog") (hexEncode req.actionID)) =
      some ⟨.index ie, mt⟩)
    (hhex : (hexDecodeString ie.outputID).isSome)
    (hpay : fs.lookup (oFile (dir ++ "/gocacheprog") ie.outputID) =
      some ⟨.raw b, pmt⟩) :
    (handleGet dir remote now fs req).res.miss = false ∧
    (handleGet dir remote now fs req).res.size = (b.length : Int) ∧
    (handleGet dir remote now fs req).res.timeNanos = pmt ∧
    (handleGet dir remote now fs req).res.diskPath =
      oFile (dir ++ "/gocacheprog") ie.outputID ∧
    (handleGet dir remote now fs req).res.outputID = none ∧
    (handleGet dir remote now fs req).hitsLocal = 1 ∧
    (handleGet dir remote now fs req).err = none := by
  obtain ⟨l, hl⟩ := Option.isSome_iff_exists.mp hhex
  simp [handleGet, hlk, hl, finishGet, hpay, FileContent.statSize]

/-- Witness for C7 (amended): a concrete index entry and payload on disk. -/
theorem claim_C7_local_hit_fields_witness :
    (handleGet "/c" (fun _ => .err "down") 9
        [(aFile ("/c" ++ "/gocacheprog") "aa", ⟨.index ⟨1, "bb", 3, 5⟩, 5⟩),
         (oFile ("/c" ++ "/gocacheprog") "bb", ⟨.raw [1, 2, 3], 7⟩)]
        { id := 2, command := "get", actionID := [0xAA] }).res.miss = false ∧
    (handleGet "/c" (fun _ => .err "down") 9
        [(aFile ("/c" ++ "/gocacheprog") "aa", ⟨.index ⟨1, "bb", 3, 5⟩, 5⟩),
         (oFile ("/c" ++ "/gocacheprog") "bb", ⟨.raw [1, 2, 3], 7⟩)]
        { id := 2, command := "get", actionID := [0xAA] }).res.size = ((3 : Nat) : Int) ∧
    (handleGet "/c" (fun _ => .err "down") 9
        [(aFile ("/c" ++ "/gocacheprog") "aa", ⟨.index ⟨1, "bb", 3, 5⟩, 5⟩),
         (oFile ("/c" ++ "/gocacheprog") "bb", ⟨.raw [1, 2, 3], 7⟩)]
        { id := 2, command := "get", actionID := [0xAA] }).res.timeNanos = 7 ∧
    (handleGet "/c" (fun _ => .err "down") 9
        [(aFile ("/c" ++ "/gocacheprog") "aa", ⟨.index ⟨1, "bb", 3, 5⟩, 5⟩),
         (oFile ("/c" ++ "/gocacheprog") "bb", ⟨.raw [1, 2, 3], 7⟩)]
        { id := 2, command := "get", actionID := [0xAA] }).res.diskPath =
      oFile ("/c" ++ "/gocacheprog") "bb" ∧
    (handleGet "/c" (fun _ => .err "down") 9
        [(aFile ("/c" ++ "/gocacheprog") "aa", ⟨.index ⟨1, "bb", 3, 5⟩, 5⟩),
         (oFile ("/c" ++ "/gocacheprog") "bb", ⟨.raw [1, 2, 3], 7⟩)]
        { id := 2, command := "get", actionID := [0xAA] }).res.outputID = none ∧
    (handleGet "/c" (fun _ => .err "down") 9
        [(aFile ("/c" ++ "/gocacheprog") "aa", ⟨.index ⟨1, "bb", 3, 5⟩, 5⟩),
         (oFile ("/c" ++ "/gocacheprog") "bb", ⟨.raw [1, 2, 3], 7⟩)]
        { id := 2, command := "get", actionID := [0xAA] }).hitsLocal = 1 ∧
    (handleGet "/c" (fun _ => .err "down") 9
        [(aFile ("/c" ++ "/gocacheprog") "aa", ⟨.index ⟨1, "bb", 3, 5⟩, 5⟩),
         (oFile ("/c" ++ "/gocacheprog") "bb", ⟨.raw [1, 2, 3], 7⟩)]
        { id := 2, command := "get", actionID := [0xAA] }).err = none :=
  claim_C7_local_hit_fields "/c" (fun _ => .err "down") 9
    [(aFile ("/c" ++ "/gocacheprog") "aa", ⟨.index ⟨1, "bb", 3, 5⟩, 5⟩),
     (oFile ("/c" ++ "/gocacheprog") "bb", ⟨.raw [1, 2, 3], 7⟩)]
    { id := 2, command := "get", actionID := [0xAA] } ⟨1, "bb", 3, 5⟩ 5 [1, 2, 3] 7
    (by decide) (by decide) (by decide)

/-- C8: the `puts` counter does not count put requests. A handled put below the
upload threshold, and a handled put whose background upload succeeds, leave
`puts` at 0 after shutdown; only a failed upload increments it — the counter's
only increment site is the `if err != nil` after `p.cache.Put` in the upload
goroutine. -/
theorem claim_C8_puts_counter_evaluation :
    (runSession "/c" 15000 (fun _ => .err "down") 0
        [.vreq { id := 1, command := "put", actionID := [0xAA], objectID := [0xBB],
                 bodySize := 0 }] FS.empty).1.responses.length = 1 ∧
    finalPuts (fun _ => none)
      (runSession "/c" 15000 (fun _ => .err "down") 0
        [.vreq { id := 1, command := "put", actionID := [0xAA], objectID := [0xBB],
                 bodySize := 0 }] FS.empty).1 = 0 ∧
    (runSession "/c" 1 (fun _ => .err "down") 0
        [.vreq { id := 2, command := "put", actionID := [0xAA], objectID := [0xBB],
                 bodySize := 3 }, .vbytes [1, 2, 3]] FS.empty).1.responses.length = 1 ∧
    finalPuts (fun _ => none)
      (runSession "/c" 1 (fun _ => .err "down") 0
        [.vreq { id := 2, command := "put", actionID := [0xAA], objectID := [0xBB],
                 bodySize := 3 }, .vbytes [1, 2, 3]] FS.empty).1 = 0 ∧
    finalPuts (fun _ => some "upload failed")
      (runSession "/c" 1 (fun _ => .err "down") 0
        [.vreq { id := 2, command := "put", actionID := [0xAA], objectID := [0xBB],
                 bodySize := 3 }, .vbytes [1, 2, 3]] FS.empty).1 = 1 :=
  ⟨rfl, rfl, rfl, rfl, rfl⟩

/-- C9: on a local miss, when the remote returns a hit with a valid-hex
outputID but the promotion into the local store fails (the remote reader
delivers a number of bytes different from the remote-reported size — the only
failure mode of `savefile` in the model), the response is a miss with a
non-empty error and neither hit counter is incremented. -/
theorem claim_C9_promotion_failure_miss_with_error (dir : String) (remote : Remote)
    (now : Int) (fs : FS) (req : Request) (oid : String) (sz : Int) (rbody : Bytes)
    (hmiss : fs.lookup (aFile (dir ++ "/gocacheprog") (hexEncode req.actionID)) = none)
    (hrem : remote (hexEncode req.actionID) = .ok oid sz rbody)
    (hne : oid ≠ "")
    (hhex : (hexDecodeString oid).isSome)
    (hsz : sz ≠ 0) (hlen : (rbody.length : Int) ≠ sz) :
    (handleGet dir remote now fs req).res.miss = true ∧
    (handleGet dir remote now fs req).err.isSome = true ∧
    (emitted (handleGet dir remote now fs req).res
        (handleGet dir remote now fs req).err).err.isSome = true ∧
    (handleGet dir remote now fs req).hitsLocal = 0 ∧
    (handleGet dir remote now fs req).hitsRemote = 0 := by
  obtain ⟨l, hl⟩ := Option.isSome_iff_exists.mp hhex
  obtain ⟨⟨e, he⟩, _⟩ := savefile_mismatch dir (hexEncode req.actionID) oid sz rbody
    now fs hsz hlen
  simp [handleGet, hmiss, hrem, hne, hl, he, emitted]

/-- Witness for C9: a remote hit whose reader delivers one byte of a declared
three. -/
theorem claim_C9_promotion_failure_miss_with_error_witness :
    (handleGet "/c" (fun _ => .ok "bb" 3 [1]) 0 FS.empty
        { id := 5, command := "get", actionID := [0xAA] }).res.miss = true ∧
    (handleGet "/c" (fun _ => .ok "bb" 3 [1]) 0 FS.empty
        { id := 5, command := "get", actionID := [0xAA] }).err.isSome = true ∧
    (emitted (handleGet "/c" (fun _ => .ok "bb" 3 [1]) 0 FS.empty
          { id := 5, command := "get", actionID := [0xAA] }).res
        (handleGet "/c" (fun _ => .ok "bb" 3 [1]) 0 FS.empty
          { id := 5, command := "get", actionID := [0xAA] }).err).err.isSome = true ∧
    (handleGet "/c" (fun _ => .ok "bb" 3 [1]) 0 FS.empty
        { id := 5, command := "get", actionID := [0xAA] }).hitsLocal = 0 ∧
    (handleGet "/c" (fun _ => .ok "bb" 3 [1]) 0 FS.empty
        { id := 5, command := "get", actionID := [0xAA] }).hitsRemote = 0 :=
  claim_C9_promotion_failure_miss_with_error "/c" (fun _ => .ok "bb" 3 [1]) 0
    FS.empty { id := 5, command := "get", actionID := [0xAA] } "bb" 3 [1]
    rfl rfl (by decide) (by decide) (by decide) (by decide)

/-- C10: a successful `DiskCache.Get` hands back a reader over the index-entry
JSON file's own content, not the payload's, even though the returned path and
size refer to the payload object. -/
theorem claim_C10_get_reader_returns_index_bytes (dir : String) (fs : FS)
    (actionID : String) (r : DiskGetOk)
    (h : DiskCache.Get dir fs actionID = .ok r) :
    ∃ ie mt, fs.lookup (aFile dir actionID) = some ⟨.index ie, mt⟩ ∧
      r.reader = .index ie ∧
      r.outputID = ie.outputID ∧
      r.size = ie.size ∧
      r.diskPath = oFile dir ie.outputID ∧
      ∀ pb pmt, fs.lookup (oFile dir ie.outputID) = some ⟨.raw pb, pmt⟩ →
        r.reader ≠ .raw pb := by
  unfold DiskCache.Get at h
  rcases hfs : fs.lookup (aFile dir actionID) with _ | f
  · rw [hfs] at h
    simp at h
  · rw [hfs] at h
    rcases f with ⟨c, mt⟩
    rcases c with bs | ie
    · simp at h
    · dsimp only at h
      rcases hdec : hexDecodeString ie.outputID with _ | l
      · rw [hdec] at h
        simp at h
      · rw [hdec] at h
        simp only [Except.ok.injEq] at h
        subst h
        refine ⟨ie, mt, rfl, rfl, rfl, rfl, rfl, ?_⟩
        intro pb pmt _ hcontra
        cases hcontra

/-- Witness for C10: a concrete store where the payload bytes differ from the
index JSON; the returned reader is the index content. -/
theorem claim_C10_get_reader_returns_index_bytes_witness :
    ∃ ie mt,
      FS.lookup
          [(aFile "/c" "aa", ⟨.index ⟨1, "bb", 3, 5⟩, 5⟩),
           (oFile "/c" "bb", ⟨.raw [1, 2, 3], 7⟩)] (aFile "/c" "aa") =
        some ⟨.index ie, mt⟩ ∧
      (DiskGetOk.mk "bb" (oFile "/c" "bb") 3 (.index ⟨1, "bb", 3, 5⟩)).reader = .index ie ∧
      (DiskGetOk.mk "bb" (oFile "/c" "bb") 3 (.index ⟨1, "bb", 3, 5⟩)).outputID = ie.outputID ∧
      (DiskGetOk.mk "bb" (oFile "/c" "bb") 3 (.index ⟨1, "bb", 3, 5⟩)).size = ie.size ∧
      (DiskGetOk.mk "bb" (oFile "/c" "bb") 3 (.index ⟨1, "bb", 3, 5⟩)).diskPath =
        oFile "/c" ie.outputID ∧
      ∀ pb pmt,
        FS.lookup
            [(aFile "/c" "aa", ⟨.index ⟨1, "bb", 3, 5⟩, 5⟩),
             (oFile "/c" "bb", ⟨.raw [1, 2, 3], 7⟩)] (oFile "/c" ie.outputID) =
          some ⟨.raw pb, pmt⟩ →
        (DiskGetOk.mk "bb" (oFile "/c" "bb") 3 (.index ⟨1, "bb", 3, 5⟩)).reader ≠ .raw pb :=
  claim_C10_get_reader_returns_index_bytes "/c"
    [(aFile "/c" "aa", ⟨.index ⟨1, "bb", 3, 5⟩, 5⟩),
     (oFile "/c" "bb", ⟨.raw [1, 2, 3], 7⟩)] "aa"
    (DiskGetOk.mk "bb" (oFile "/c" "bb") 3 (.index ⟨1, "bb", 3, 5⟩)) rfl

end GoCache
